import Mathlib

/-!
  # Verification of the rlm core (request router, wire protocol, orchestration loop)

  A shallow embedding of the Python sources under `src/rlm/`:

  * `src/rlm/core/comms_utils.py` — the `LMRequest` / `LMResponse` message
    dataclasses, the length-prefixed framing (`socket_send` / `socket_recv`),
    and the typed request helper (`socket_request` / `send_lm_request`);
  * `src/rlm/core/lm_handler.py` — the per-connection request handler
    (`LMRequestHandler.handle`) and client resolution (`LMHandler.get_client`);
  * `src/rlm/core/rlm.py` — the orchestration loop (`RLM.completion`,
    `RLM._completion_turn`, `RLM._default_answer`) and the constructor's
    handling of the mutable default `environment_kwargs` mapping.

  JSON payloads are modelled by the inductive `JValue`; Python dictionaries by
  insertion-ordered association lists.  External collaborators (the concrete
  model clients, the execution environments, and the TCP transport) are
  modelled as oracle parameters: a client is a function from the prompt to a
  result, and a network exchange is a function from the sent payload and the
  timeout to an `Except` outcome, where `Except.error` stands for a raised
  Python exception.
-/

/-- A JSON value as produced by `json.loads`: the payloads that travel on the
wire.  `null` doubles as the Python `None`. Numbers are modelled as integers
(no claim inspects numeric payload values). -/
inductive JValue where
  | str (s : String)
  | num (n : Int)
  | bool (b : Bool)
  | null
  | arr (xs : List JValue)
  | obj (kvs : List (String × JValue))
deriving Repr

/-- A Python dictionary with string keys, as an insertion-ordered association
list (lookup finds the first, and `dict_set` keeps keys unique). -/
abbrev Kwargs := List (String × JValue)

/-- Python dictionary assignment `d[k] = v`: replaces the value of an existing
key in place, otherwise appends the new key at the end. -/
def dict_set (d : Kwargs) (k : String) (v : JValue) : Kwargs :=
  if (d.lookup k).isSome then d.map (fun kv => if kv.1 = k then (k, v) else kv)
  else d ++ [(k, v)]

/-- Python truthiness (`bool(x)`) on a JSON value: the empty string, zero,
`False`, `None`, the empty array and the empty object are falsy. -/
def pyTruthy : JValue → Bool
  | .str s => s ≠ ""
  | .num n => n ≠ 0
  | .bool b => b
  | .null => false
  | .arr xs => ¬ xs.isEmpty
  | .obj kvs => ¬ kvs.isEmpty

/-- Python `data.get(k)`: `None` for a missing key; a key bound to JSON `null`
also yields `None`, indistinguishable from a missing key. -/
def pyGetOpt (kvs : Kwargs) (k : String) : Option JValue :=
  match kvs.lookup k with
  | none => none
  | some .null => none
  | some v => some v

/-- Request message sent to the LM Handler (`LMRequest` in comms_utils.py).
The `prompt` field is annotated `str | Dict` but, like the Python runtime,
the model lets it hold any JSON value that `from_dict` can produce; `model`
is `None` (`Option.none`) when absent. -/
structure LMRequest where
  prompt : JValue
  model : Option JValue
deriving Repr

/-- `LMRequest.to_dict`: the serialized request, `{"prompt": ...}` plus a
`"model"` key only when the override is not `None`. -/
def LMRequest.to_dict (r : LMRequest) : Kwargs :=
  ("prompt", r.prompt) ::
    (match r.model with
     | some v => [("model", v)]
     | none => [])

/-- `LMRequest.from_dict`: `prompt = data.get("prompt", "")` (so a missing key
becomes the empty string, while a key bound to `null` becomes `None` itself),
and `model = data.get("model")`. Total on every dictionary. -/
def LMRequest.from_dict (data : Kwargs) : LMRequest :=
  { prompt := (data.lookup "prompt").getD (.str "")
    model := pyGetOpt data "model" }

/-- Response message from the LM Handler (`LMResponse` in comms_utils.py):
two `Optional[str]` fields, `content` and `error`. -/
structure LMResponse where
  content : Option String := none
  error : Option String := none
deriving Repr, DecidableEq

/-- `LMResponse.success`: a response is successful iff `error is None`. -/
def LMResponse.success (r : LMResponse) : Bool :=
  r.error.isNone

/-- `LMResponse.to_dict`: `{"error": e}` when the error field is set,
otherwise `{"content": self.content or ""}` (a `None` content serializes as
the empty string). -/
def LMResponse.to_dict (r : LMResponse) : Kwargs :=
  match r.error with
  | some e => [("error", .str e)]
  | none => [("content", .str (r.content.getD ""))]

/-- `LMResponse.from_dict`: reads the `content` and `error` string fields of a
decoded payload (absent or `null` keys become `None`). -/
def LMResponse.from_dict (data : Kwargs) : LMResponse :=
  { content := match pyGetOpt data "content" with
      | some (.str s) => some s
      | _ => none
    error := match pyGetOpt data "error" with
      | some (.str s) => some s
      | _ => none }

/-- `LMResponse.success_response`: a successful response with the given text. -/
def LMResponse.success_response (content : String) : LMResponse :=
  { content := some content }

/-- `LMResponse.error_response`: a failed response with the given message. -/
def LMResponse.error_response (error : String) : LMResponse :=
  { error := some error }

/-!
  ## Wire framing (`socket_recv`)

  The TCP byte stream delivered to a receiver is modelled as a list of
  non-empty fragments: one fragment per successful `sock.recv` call, so a
  fragment shorter than the requested size is a partial read.  When the list
  is exhausted the connection is closed and `recv` returns no bytes.  Bytes
  are natural numbers below 256.
-/

/-- One blocking `sock.recv(n)` on the fragment stream: returns up to `n`
bytes of the next fragment (the remainder of a long fragment stays queued),
or no bytes at all once the stream is exhausted (connection closed). -/
def sockRecvOnce (n : Nat) : List (List Nat) → List Nat × List (List Nat)
  | [] => ([], [])
  | f :: rest =>
      if f.length ≤ n then (f, rest)
      else (f.take n, f.drop n :: rest)

/-- The payload loop of `socket_recv`: `while len(payload) < length` keep
calling `recv(length - len(payload))` and appending; `none` when a `recv`
returns no bytes first (connection closed before the message is complete,
`ConnectionError` in the source). -/
def recvPayload : (need : Nat) → (σ : List (List Nat)) → Option (List Nat)
  | 0, _ => some []
  | _ + 1, [] => none
  | need + 1, f :: rest =>
      if f.length ≤ need + 1 then
        match recvPayload (need + 1 - f.length) rest with
        | some p => some (f ++ p)
        | none => none
      else some (f.take (need + 1))

/-- Big-endian interpretation of the 4 length-prefix bytes
(`struct.unpack(">I", raw_len)`). -/
def beToNat (bs : List Nat) : Nat :=
  bs.foldl (fun a b => a * 256 + b) 0

/-- Outcome of `socket_recv`: the decoded payload bytes, the no-message empty
dict, or one of the two exceptions the source can raise while framing. -/
inductive RecvResult where
  /-- `recv(4)` returned no bytes: the source returns the empty dict. -/
  | noMessage
  /-- A complete message: exactly the declared number of payload bytes,
  handed to `json.loads`. -/
  | message (payload : List Nat)
  /-- `struct.unpack(">I", raw_len)` raised: `recv(4)` returned a non-empty
  buffer of fewer than 4 bytes. -/
  | structError
  /-- `ConnectionError("Connection closed before message complete")`: the
  stream ended after the length prefix but before the full payload. -/
  | connectionError
deriving Repr, DecidableEq

/-- `socket_recv`: read the 4-byte big-endian length prefix with a single
`recv(4)`, then buffer payload chunks until the declared number of bytes is
obtained. -/
def socket_recv (σ : List (List Nat)) : RecvResult :=
  let (raw_len, rem) := sockRecvOnce 4 σ
  if raw_len.isEmpty then .noMessage
  else if raw_len.length ≠ 4 then .structError
  else
    match recvPayload (beToNat raw_len) rem with
    | some payload => .message payload
    | none => .connectionError

/-!
  ## Request router (`lm_handler.py`)

  A model client is an oracle from the prompt to an `Except` outcome:
  `Except.ok` is the returned completion text, `Except.error` a raised
  exception's message (`ProviderError` etc.).
-/

/-- A Model Client's synchronous `completion` operation, as an oracle. -/
abbrev ClientFun := JValue → Except String String

/-- The router's client state: the default client plus the registration table
from model-name strings to clients (`LMHandler.default_client` /
`LMHandler.clients`). -/
structure LMHandler where
  default_client : ClientFun
  clients : List (String × ClientFun)

/-- `LMHandler.get_client`: `if model and model in self.clients` return the
registered client, else the default.  A falsy `model` (Python `None`, the
empty string, ...) selects the default; a truthy unhashable value (a JSON
array or object) makes the `in` test raise `TypeError`; any other truthy
non-string value is hashable but never matches the string keys. -/
def LMHandler.get_client (h : LMHandler) (model : Option JValue) :
    Except String ClientFun :=
  match model with
  | none => .ok h.default_client
  | some v =>
      if pyTruthy v then
        match v with
        | .str s => .ok ((h.clients.lookup s).getD h.default_client)
        | .arr _ => .error "unhashable type: list"
        | .obj _ => .error "unhashable type: dict"
        | _ => .ok h.default_client
      else .ok h.default_client

/-- `LMHandler.completion`: the in-process shortcut used by the orchestration
loop — resolve a client and call it directly, no socket hop. -/
def LMHandler.completion (h : LMHandler) (prompt : JValue)
    (model : Option JValue := none) : Except String String :=
  match h.get_client model with
  | .ok client => client prompt
  | .error e => .error e

/-- `LMRequestHandler.handle` on a decoded inbound payload: the dictionary
sent back over the connection, paired with the number of Model Client
completion invocations the handling performed.  A non-object payload and an
empty (falsy) prompt are rejected before any dispatch; an exception from
`get_client` or from the client's completion is caught and converted to an
error response. -/
def LMRequestHandler.handle (h : LMHandler) (payload : JValue) : Kwargs × Nat :=
  match payload with
  | .obj kvs =>
      let request := LMRequest.from_dict kvs
      if ¬ pyTruthy request.prompt then
        ((LMResponse.error_response "Missing or invalid prompt in request.").to_dict, 0)
      else
        match h.get_client request.model with
        | .error e => ((LMResponse.error_response e).to_dict, 0)
        | .ok client =>
            match client request.prompt with
            | .ok content => ((LMResponse.success_response content).to_dict, 1)
            | .error e => ((LMResponse.error_response e).to_dict, 1)
  | _ => ((LMResponse.error_response "Request must be a JSON object").to_dict, 0)

/-!
  ## Typed request helper (`socket_request` / `send_lm_request`)

  The network exchange of `socket_request` (connect, `socket_send`,
  `socket_recv`, JSON decode) is modelled as an oracle from the sent
  dictionary and the timeout to an outcome; `Except.error` stands for any
  raised exception (timeout, connection refused, `ConnectionError`, ...).
-/

/-- The outcome oracle for one `socket_request` exchange. -/
abbrev NetExchange := Kwargs → Nat → Except String Kwargs

/-- `socket_request`: open a connection with the given timeout, send one
framed message, receive one framed response — all modelled by the oracle's
outcome on the sent data and timeout. -/
def socket_request (net : NetExchange) (data : Kwargs) (timeout : Nat) :
    Except String Kwargs :=
  net data timeout

/-- The default of the `timeout` parameter of `send_lm_request`
(`timeout: int = 300` in the source signature). -/
def send_lm_request_default_timeout : Nat := 300

/-- `send_lm_request`: serialize the request, perform the exchange, decode the
typed response; any exception is caught and turned into a synthesized
`Request failed: ...` error response, so the helper itself never raises. -/
def send_lm_request (net : NetExchange) (request : LMRequest)
    (timeout : Nat) : LMResponse :=
  match socket_request net request.to_dict timeout with
  | .ok response_data => LMResponse.from_dict response_data
  | .error e => LMResponse.error_response ("Request failed: " ++ e)

/-!
  ## Orchestration loop (`rlm.py`)

  `REPLResult`, `CodeBlock` and `RLMIteration` follow `core/types.py`.  The
  parsing helpers live in `rlm.utils.parsing`, which is not part of the core
  sources; they enter the model as function parameters, constrained only where
  a claim constrains them: `extract_code_blocks` yields the fenced code blocks
  of a response in document order, `extract_final_answer` yields the final
  answer when the response carries the marker (Python-falsy results — `None`
  or the empty string — do not stop the loop), and `format_iteration` renders
  an iteration into the messages appended to the history.

  The scripted Model Client behind `LMHandler.completion` is a function of
  the number of completion calls made so far and the current message history,
  and the loop's trace records that call count.
-/

/-- `REPLResult` (core/types.py): captured output of one code execution.
`execution_time` is absent when timing was not captured; its numeric value is
never inspected by the core, so it is carried as an opaque rational. -/
structure REPLResult where
  stdout : String
  stderr : String
  locals : List (String × JValue)
  execution_time : Option Rat
deriving Repr

/-- `CodeBlock` (core/types.py): the literal code text paired with its
execution result. -/
structure CodeBlock where
  code : String
  result : REPLResult
deriving Repr

/-- `RLMIteration` (core/types.py): one loop pass — the raw model response
and the ordered code blocks produced from it. -/
structure RLMIteration where
  response : String
  code_blocks : List CodeBlock
deriving Repr

/-- A chat message (`{"role": ..., "content": ...}` dictionaries). -/
abbrev Message := Kwargs

/-- The loop's observable trace: how many completion calls have been issued
through the handler's in-process shortcut. -/
structure LoopTrace where
  lmCalls : Nat
deriving Repr, DecidableEq

/-- The constructor arguments the loop reads (`RLM.__init__` stores both
bounds; `max_depth` is reserved for nested sub-agent invocation). -/
structure RLMConfig where
  max_depth : Nat
  max_iterations : Nat
deriving Repr

/-- The `for code_block_str in code_block_strs` loop of `_completion_turn`:
execute every extracted block against the environment in order, appending
each `CodeBlock` to the accumulator — no result, failing or not, stops the
loop. -/
def execBlocks (env : String → REPLResult) :
    List String → List CodeBlock → List CodeBlock
  | [], acc => acc
  | c :: rest, acc => execBlocks env rest (acc ++ [⟨c, env c⟩])

/-- `RLM._setup_prompt`: a fresh history holding one user message. -/
def RLM.setup_prompt (prompt : JValue) : List Message :=
  [[("role", .str "user"), ("content", prompt)]]

/-- `RLM._completion_turn`: issue exactly one completion through the
handler's in-process shortcut, extract the fenced code blocks of that single
response, and execute each in order. -/
def RLM.completion_turn (client : Nat → List Message → String)
    (extract_code_blocks : String → List String)
    (env : String → REPLResult)
    (history : List Message) (t : LoopTrace) : RLMIteration × LoopTrace :=
  let response := client t.lmCalls history
  let code_block_strs := extract_code_blocks response
  let code_blocks := execBlocks env code_block_strs []
  (⟨response, code_blocks⟩, ⟨t.lmCalls + 1⟩)

/-- `RLM._default_answer`: the designated ran-out-of-iterations fallback. -/
def RLM.default_answer (_history : List Message) : String :=
  "The RLM ran out of iterations and did not find a final answer."

/-- The `for i in range(self.max_iterations)` loop of `RLM.completion`: one
turn per remaining iteration; a truthy extracted final answer returns it,
otherwise the formatted iteration is appended to the history; when the range
is exhausted the designated fallback is returned. -/
def RLM.completionLoop (client : Nat → List Message → String)
    (extract_code_blocks : String → List String)
    (env : String → REPLResult)
    (extract_final_answer : RLMIteration → Option String)
    (format_iteration : RLMIteration → List Message) :
    Nat → List Message → LoopTrace → String × LoopTrace
  | 0, history, t => (RLM.default_answer history, t)
  | n + 1, history, t =>
      let (iteration, t') :=
        RLM.completion_turn client extract_code_blocks env history t
      match extract_final_answer iteration with
      | some s =>
          if s = "" then
            RLM.completionLoop client extract_code_blocks env
              extract_final_answer format_iteration
              n (history ++ format_iteration iteration) t'
          else (s, t')
      | none =>
          RLM.completionLoop client extract_code_blocks env
            extract_final_answer format_iteration
            n (history ++ format_iteration iteration) t'

/-- `RLM.completion`: set up the history from the prompt and run up to
`max_iterations` turns, returning the final answer (or the fallback) together
with the completion-call trace. -/
def RLM.completion (cfg : RLMConfig) (client : Nat → List Message → String)
    (extract_code_blocks : String → List String)
    (env : String → REPLResult)
    (extract_final_answer : RLMIteration → Option String)
    (format_iteration : RLMIteration → List Message)
    (prompt : JValue) : String × LoopTrace :=
  RLM.completionLoop client extract_code_blocks env
    extract_final_answer format_iteration
    cfg.max_iterations (RLM.setup_prompt prompt) ⟨0⟩

/-!
  ## Constructor configuration state (`RLM.__init__`)

  `RLM.__init__` declares `environment_kwargs: Dict[str, Any] = {}`.  In
  Python the default dictionary is created once, when the function is
  defined, and every call that omits the argument receives that same mutable
  object; `__init__` then assigns `environment_kwargs["LM_HANDLER_HOST"]` and
  `environment_kwargs["LM_HANDLER_PORT"]` into it.  The module-level cell
  holding the default is modelled explicitly, and a construction either uses
  it (argument omitted) or uses a caller-supplied dictionary.
-/

/-- The module-level cell holding `RLM.__init__`'s default
`environment_kwargs` dictionary, created once at definition time. -/
structure RLMDefaults where
  environment_kwargs_default : Kwargs
deriving Repr

/-- How a caller supplies `environment_kwargs`: omitted (the shared default
object is used) or an explicit dictionary of its own. -/
inductive EnvKwargsArg where
  | omitted
  | given (kwargs : Kwargs)

/-- The configuration-relevant effect of one `RLM.__init__` call: the
environment configuration passed to `get_environment`, and the module state
after the call (mutations of the shared default object persist there). -/
def RLM.init (defaults : RLMDefaults) (arg : EnvKwargsArg)
    (host : String) (port : Nat) : Kwargs × RLMDefaults :=
  let environment_kwargs :=
    match arg with
    | .omitted => defaults.environment_kwargs_default
    | .given kwargs => kwargs
  let environment_kwargs :=
    dict_set environment_kwargs "LM_HANDLER_HOST" (.str host)
  let environment_kwargs :=
    dict_set environment_kwargs "LM_HANDLER_PORT" (.num (Int.ofNat port))
  match arg with
  | .omitted => (environment_kwargs, ⟨environment_kwargs⟩)
  | .given _ => (environment_kwargs, defaults)

/-!
  ## Claim-side predicates
-/

/-- The prompt value of a payload is absent or empty: the key is missing, or
it is bound to the empty string or to an empty structured prompt. -/
def promptMissingOrEmpty : Option JValue → Bool
  | none => true
  | some (.str s) => s = ""
  | some (.arr xs) => xs.isEmpty
  | some (.obj kvs) => kvs.isEmpty
  | some _ => false

/-- An inbound payload the router must reject before any dispatch: not a JSON
object, or a JSON object whose prompt is missing or empty. -/
def rejectedPayload : JValue → Bool
  | .obj kvs => promptMissingOrEmpty (kvs.lookup "prompt")
  | _ => true

/-!
  ## Theorems
-/

/-- C2: for every valid request (non-empty prompt, whether a plain string or
a structured prompt) with or without a string model override, decoding the
encoded form yields the original request:
`LMRequest.from_dict(r.to_dict()) == r`. -/
theorem lm_request_round_trip (r : LMRequest)
    (hvalid : pyTruthy r.prompt = true)
    (hmodel : r.model = none ∨ ∃ s, r.model = some (JValue.str s)) :
    LMRequest.from_dict r.to_dict = r := by
  obtain ⟨p, m⟩ := r
  rcases hmodel with hm | ⟨s, hm⟩ <;> simp only at hm <;> subst hm <;> rfl

/-- Witness for C2: a concrete string-prompt request with a model override
round-trips. -/
theorem lm_request_round_trip_witness :
    pyTruthy (JValue.str "hello") = true ∧
    LMRequest.from_dict
        (LMRequest.to_dict ⟨JValue.str "hello", some (JValue.str "gpt-4o")⟩)
      = ⟨JValue.str "hello", some (JValue.str "gpt-4o")⟩ :=
  ⟨rfl, lm_request_round_trip ⟨JValue.str "hello", some (JValue.str "gpt-4o")⟩
    rfl (Or.inr ⟨"gpt-4o", rfl⟩)⟩

/-- C3 (failing input): the peer delivers only two of the four length-prefix
bytes and closes the connection. `recv(4)` returns the two bytes, so the
`if not raw_len` guard does not fire and `struct.unpack(">I", raw_len)`
raises, although the connection closed before a length prefix was obtained —
the claim (and the source docstring) promise the no-message empty dict. -/
theorem socket_recv_partial_len_raises :
    socket_recv [[0, 1]] = RecvResult.structError ∧
    RecvResult.structError ≠ RecvResult.noMessage := by
  exact ⟨rfl, by decide⟩

/-- C6: every serialized completion response carries exactly one of the keys
`content` or `error`; a response is successful iff its error field is absent;
and a success response with an absent content serializes `content` as the
empty string. -/
theorem lm_response_exactly_one_key (r : LMResponse) :
    ((∃ c, r.to_dict = [("content", JValue.str c)]) ∨
      (∃ e, r.to_dict = [("error", JValue.str e)])) ∧
    ((r.to_dict.lookup "content").isSome ↔ (r.to_dict.lookup "error") = none) ∧
    (r.success = true ↔ r.error = none) ∧
    (r.error = none → r.content = none → r.to_dict = [("content", JValue.str "")]) := by
  obtain ⟨c, e⟩ := r
  cases e with
  | some e =>
      refine ⟨Or.inr ⟨e, rfl⟩, ?_, ?_, ?_⟩
      · simp [LMResponse.to_dict, List.lookup]
      · simp [LMResponse.success]
      · intro h; cases h
  | none =>
      refine ⟨Or.inl ⟨c.getD "", rfl⟩, ?_, ?_, ?_⟩
      · simp [LMResponse.to_dict, List.lookup]
      · simp [LMResponse.success]
      · intro _ hc
        simp only at hc
        subst hc
        rfl

/-- Witness for C6: the all-defaults response serializes as the empty-string
content and counts as successful. -/
theorem lm_response_exactly_one_key_witness :
    (LMResponse.mk none none).to_dict = [("content", JValue.str "")] ∧
    (LMResponse.mk none none).success = true :=
  ⟨(lm_response_exactly_one_key ⟨none, none⟩).2.2.2 rfl rfl,
    (lm_response_exactly_one_key ⟨none, none⟩).2.2.1.mpr rfl⟩

/-- C7: the typed request helper passes the caller-supplied timeout (whose
signature default is 300) to the exchange, and never raises — any exception
of the exchange becomes a synthesized `Request failed: ...` error response,
while a successful exchange decodes into the typed response. -/
theorem send_lm_request_never_raises (net : NetExchange) (request : LMRequest)
    (timeout : Nat) :
    (∀ e, net request.to_dict timeout = .error e →
        send_lm_request net request timeout
          = LMResponse.error_response ("Request failed: " ++ e) ∧
        (send_lm_request net request timeout).success = false) ∧
    (∀ d, net request.to_dict timeout = .ok d →
        send_lm_request net request timeout = LMResponse.from_dict d) ∧
    send_lm_request_default_timeout = 300 := by
  refine ⟨fun e he => ?_, fun d hd => ?_, rfl⟩
  · constructor <;>
      simp [send_lm_request, socket_request, he, LMResponse.error_response,
        LMResponse.success]
  · simp [send_lm_request, socket_request, hd]

/-- Witness for C7: a timed-out exchange yields the synthesized error
response at the default timeout of 300. -/
theorem send_lm_request_never_raises_witness :
    send_lm_request (fun _ _ => .error "timed out") ⟨JValue.str "hi", none⟩ 300
      = LMResponse.error_response "Request failed: timed out" :=
  ((send_lm_request_never_raises (fun _ _ => .error "timed out")
    ⟨JValue.str "hi", none⟩ 300).1 "timed out" rfl).1

/-- C8 (divergence witness): the stored recursion-depth bound `max_depth` is
never read on any execution path — completions with different bounds are the
very same computation, so no depth check against `maxDepth` exists in the
core. -/
theorem max_depth_never_read (d₁ d₂ m : Nat)
    (client : Nat → List Message → String)
    (extract_code_blocks : String → List String)
    (env : String → REPLResult)
    (extract_final_answer : RLMIteration → Option String)
    (format_iteration : RLMIteration → List Message)
    (prompt : JValue) :
    RLM.completion ⟨d₁, m⟩ client extract_code_blocks env
        extract_final_answer format_iteration prompt
      = RLM.completion ⟨d₂, m⟩ client extract_code_blocks env
        extract_final_answer format_iteration prompt := rfl

/-- C9 (failing input): the first construction that omits
`environment_kwargs` mutates the shared module-level default dictionary in
place, so the default any later construction observes is no longer the
pristine empty mapping. -/
theorem default_environment_kwargs_shared :
    (RLM.init ⟨[]⟩ .omitted "127.0.0.1" 5000).2.environment_kwargs_default
        = [("LM_HANDLER_HOST", JValue.str "127.0.0.1"),
           ("LM_HANDLER_PORT", JValue.num 5000)] ∧
    (RLM.init ⟨[]⟩ .omitted "127.0.0.1" 5000).2.environment_kwargs_default
        ≠ [] := by
  refine ⟨rfl, ?_⟩
  intro h
  rw [show (RLM.init ⟨[]⟩ .omitted "127.0.0.1" 5000).2.environment_kwargs_default
        = [("LM_HANDLER_HOST", JValue.str "127.0.0.1"),
           ("LM_HANDLER_PORT", JValue.num 5000)] from rfl] at h
  cases h

/-- C1: a payload that is not a JSON object, or whose prompt is missing or
empty, makes the per-connection handler send an error response and return
with zero Model Client completion invocations. -/
theorem handler_rejects_before_dispatch (h : LMHandler) (payload : JValue)
    (hbad : rejectedPayload payload = true) :
    (∃ e, (LMRequestHandler.handle h payload).1 = [("error", JValue.str e)]) ∧
    (LMRequestHandler.handle h payload).2 = 0 := by
  cases payload with
  | obj kvs =>
      have hp : pyTruthy (LMRequest.from_dict kvs).prompt = false := by
        simp only [rejectedPayload] at hbad
        simp only [LMRequest.from_dict]
        rcases hl : kvs.lookup "prompt" with _ | v
        · simp [pyTruthy]
        · rw [hl] at hbad
          cases v with
          | str s =>
              simp only [promptMissingOrEmpty, decide_eq_true_eq] at hbad
              subst hbad
              simp [pyTruthy]
          | arr xs => simpa [promptMissingOrEmpty, pyTruthy] using hbad
          | obj kvs => simpa [promptMissingOrEmpty, pyTruthy] using hbad
          | num n => simp [promptMissingOrEmpty] at hbad
          | bool b => simp [promptMissingOrEmpty] at hbad
          | null => simp [promptMissingOrEmpty] at hbad
      refine ⟨⟨"Missing or invalid prompt in request.", ?_⟩, ?_⟩ <;>
        simp [LMRequestHandler.handle, hp, LMResponse.error_response,
          LMResponse.to_dict]
  | str s => exact ⟨⟨"Request must be a JSON object", rfl⟩, rfl⟩
  | num n => exact ⟨⟨"Request must be a JSON object", rfl⟩, rfl⟩
  | bool b => exact ⟨⟨"Request must be a JSON object", rfl⟩, rfl⟩
  | null => exact ⟨⟨"Request must be a JSON object", rfl⟩, rfl⟩
  | arr xs => exact ⟨⟨"Request must be a JSON object", rfl⟩, rfl⟩

/-- Witness for C1: a non-object payload, against a call-counting stub
client, is answered with an error and zero completion calls. -/
theorem handler_rejects_before_dispatch_witness :
    rejectedPayload (JValue.str "hi") = true ∧
    ((∃ e, (LMRequestHandler.handle ⟨fun _ => .ok "stub", []⟩
        (JValue.str "hi")).1 = [("error", JValue.str e)]) ∧
      (LMRequestHandler.handle ⟨fun _ => .ok "stub", []⟩
        (JValue.str "hi")).2 = 0) :=
  ⟨rfl, handler_rejects_before_dispatch ⟨fun _ => .ok "stub", []⟩
    (JValue.str "hi") rfl⟩

/-- C10: request decoding is total over JSON objects — a missing prompt key
decodes to the empty string and a missing model key to `None`; the decoded
value is the dictionary's prompt entry itself otherwise; and an empty prompt
is rejected only by the router's handler check, after decoding. -/
theorem from_dict_total (kvs : Kwargs) (h : LMHandler) :
    (LMRequest.from_dict kvs).prompt = (kvs.lookup "prompt").getD (.str "") ∧
    (kvs.lookup "prompt" = none → (LMRequest.from_dict kvs).prompt = .str "") ∧
    (kvs.lookup "model" = none → (LMRequest.from_dict kvs).model = none) ∧
    (kvs.lookup "prompt" = some (.str "") →
        (LMRequestHandler.handle h (.obj kvs)).2 = 0 ∧
        ∃ e, (LMRequestHandler.handle h (.obj kvs)).1
          = [("error", JValue.str e)]) := by
  refine ⟨rfl, fun h1 => ?_, fun h2 => ?_, fun h3 => ?_⟩
  · simp [LMRequest.from_dict, h1]
  · simp [LMRequest.from_dict, pyGetOpt, h2]
  · have hp : pyTruthy (LMRequest.from_dict kvs).prompt = false := by
      simp [LMRequest.from_dict, h3, pyTruthy]
    refine ⟨?_, ⟨"Missing or invalid prompt in request.", ?_⟩⟩ <;>
      simp [LMRequestHandler.handle, hp, LMResponse.error_response,
        LMResponse.to_dict]

/-- Witness for C10: the empty dictionary decodes to the empty-string prompt
and an absent model, and a dictionary with an explicitly empty prompt is
rejected by the handler with no completion call. -/
theorem from_dict_total_witness :
    (LMRequest.from_dict []).prompt = .str "" ∧
    (LMRequest.from_dict []).model = none ∧
    (LMRequestHandler.handle ⟨fun _ => .ok "stub", []⟩
        (.obj [("prompt", JValue.str "")])).2 = 0 :=
  ⟨(from_dict_total [] ⟨fun _ => .ok "stub", []⟩).2.1 rfl,
    (from_dict_total [] ⟨fun _ => .ok "stub", []⟩).2.2.1 rfl,
    ((from_dict_total [("prompt", JValue.str "")]
      ⟨fun _ => .ok "stub", []⟩).2.2.2 rfl).1⟩

/-- The accumulator-passing execution loop is the in-order map of the
environment over the extracted blocks. -/
theorem execBlocks_eq_map (env : String → REPLResult) :
    ∀ (l : List String) (acc : List CodeBlock),
      execBlocks env l acc = acc ++ l.map (fun c => ⟨c, env c⟩) := by
  intro l
  induction l with
  | nil => intro acc; simp [execBlocks]
  | cons c rest ih => intro acc; simp [execBlocks, ih]

/-- C5: each iteration issues exactly one completion through the in-process
shortcut, and every code block extracted from that single response is
executed against the environment in document order — the recorded blocks are
the in-order map of the environment over the extracted code, for every
environment, including one whose earlier blocks fail with non-empty
`stderr`. -/
theorem completion_turn_per_iteration
    (client : Nat → List Message → String)
    (extract_code_blocks : String → List String)
    (env : String → REPLResult)
    (history : List Message) (t : LoopTrace) :
    (RLM.completion_turn client extract_code_blocks env history t).2.lmCalls
        = t.lmCalls + 1 ∧
    (RLM.completion_turn client extract_code_blocks env history t).1.response
        = client t.lmCalls history ∧
    (RLM.completion_turn client extract_code_blocks env history t).1.code_blocks
        = (extract_code_blocks (client t.lmCalls history)).map
            (fun c => ⟨c, env c⟩) := by
  refine ⟨rfl, rfl, ?_⟩
  simp [RLM.completion_turn, execBlocks_eq_map]

/-- When no iteration produces a truthy final answer, the loop spends its
whole budget — one completion call per remaining iteration — and falls back
to the designated default answer. -/
theorem completionLoop_no_final
    (client : Nat → List Message → String)
    (extract_code_blocks : String → List String)
    (env : String → REPLResult)
    (extract_final_answer : RLMIteration → Option String)
    (format_iteration : RLMIteration → List Message)
    (hnf : ∀ it, extract_final_answer it = none) :
    ∀ (n : Nat) (history : List Message) (t : LoopTrace),
      RLM.completionLoop client extract_code_blocks env
          extract_final_answer format_iteration n history t
        = (RLM.default_answer history, ⟨t.lmCalls + n⟩) := by
  intro n
  induction n with
  | zero => intro history t; simp [RLM.completionLoop]
  | succ n ih =>
      intro history t
      simp only [RLM.completionLoop, RLM.completion_turn, hnf, ih]
      simp only [RLM.default_answer, Prod.mk.injEq, LoopTrace.mk.injEq]
      exact ⟨by trivial, by omega⟩

/-- C4: when the scripted client never yields a final-answer marker, the
completion operation performs exactly `max_iterations` completion calls and
returns the designated ran-out-of-iterations fallback instead of failing. -/
theorem rlm_out_of_iterations (cfg : RLMConfig)
    (client : Nat → List Message → String)
    (extract_code_blocks : String → List String)
    (env : String → REPLResult)
    (extract_final_answer : RLMIteration → Option String)
    (format_iteration : RLMIteration → List Message)
    (hnf : ∀ it, extract_final_answer it = none)
    (prompt : JValue) :
    (RLM.completion cfg client extract_code_blocks env
        extract_final_answer format_iteration prompt).1
      = "The RLM ran out of iterations and did not find a final answer." ∧
    (RLM.completion cfg client extract_code_blocks env
        extract_final_answer format_iteration prompt).2.lmCalls
      = cfg.max_iterations := by
  have h := completionLoop_no_final client extract_code_blocks env
    extract_final_answer format_iteration hnf cfg.max_iterations
    (RLM.setup_prompt prompt) ⟨0⟩
  unfold RLM.completion
  rw [h]
  exact ⟨rfl, by simp⟩

/-- Witness for C4: a scripted client that never emits a final-answer marker
with `max_iterations = 3` makes exactly 3 completion calls and gets the
fallback answer. -/
theorem rlm_out_of_iterations_witness :
    (RLM.completion ⟨1, 3⟩ (fun _ _ => "keep going") (fun _ => [])
        (fun _ => ⟨"", "", [], none⟩) (fun _ => none) (fun _ => [])
        (JValue.str "task")).1
      = "The RLM ran out of iterations and did not find a final answer." ∧
    (RLM.completion ⟨1, 3⟩ (fun _ _ => "keep going") (fun _ => [])
        (fun _ => ⟨"", "", [], none⟩) (fun _ => none) (fun _ => [])
        (JValue.str "task")).2.lmCalls = 3 :=
  rlm_out_of_iterations ⟨1, 3⟩ (fun _ _ => "keep going") (fun _ => [])
    (fun _ => ⟨"", "", [], none⟩) (fun _ => none) (fun _ => [])
    (fun _ => rfl) (JValue.str "task")
